import Mathlib

/-!
Shallow embedding of the credential manager of `src/tools/google_calendar_tool.py`
(`_get_google_calendar_service`, `_parse_datetime`) and of the one-shot CLI
`generate_token.py`, together with theorems checking the repository's
specification against it.

External effects (filesystem existence checks, the token-file parse, the
network refresh exchange, `os.remove`, the interactive consent flow, the
token-file write, and `build(...)`) are modelled by an environment `Env`
fixing the outcome each operation would have if performed; the mutable
process state (`_google_service` cache, token file) is threaded explicitly,
and every call records the trace of effects it performs.
-/

namespace GCal

/-- OAuth2 credential record, mirroring the fields of
`google.oauth2.credentials.Credentials` that the tool inspects:
`token`, `expired`, `refresh_token`. -/
structure Creds where
  token : Option String
  expired : Bool
  refresh_token : Option String
deriving DecidableEq, Repr

/-- Validity as defined by google-auth: `valid` is
`self.token is not None and not self.expired`. -/
def Creds.valid (c : Creds) : Bool :=
  c.token.isSome && !c.expired

/-- An authorized client handle as produced by
`build('calendar', 'v3', credentials=creds)`: bound to the credential record
it was built from.  `buildId` distinguishes the distinct `Resource` objects
produced by distinct `build` invocations. -/
structure Service where
  creds : Creds
  buildId : Nat
deriving DecidableEq, Repr

/-- Observable effects of one `_get_google_calendar_service` call. -/
inductive Ev where
  | existsSecret
  | existsToken
  | readToken
  | refreshCall
  | removeToken
  | flowCall
  | writeToken
  | buildCall
deriving DecidableEq, Repr

/-- Failure mode of the interactive consent flow: the
`FileNotFoundError` caught separately in the source, or any other exception. -/
inductive FlowErr where
  | fileNotFound
  | other
deriving DecidableEq, Repr

/-- Outcome of the interactive consent flow. -/
inductive FlowOutcome where
  | ok (c : Creds)
  | err (e : FlowErr)
deriving DecidableEq, Repr

/-- Outcomes of the external operations consulted by one call.  Each field
fixes what the corresponding operation would do if the call performs it. -/
structure Env where
  secretExists : Bool
  refreshResult : Option Creds
  removeOk : Bool
  flowResult : FlowOutcome
  saveOk : Bool
  buildOk : Bool
deriving DecidableEq, Repr

/-- Mutable state touched by the call: the token file (`none` = absent,
`some none` = present but unparseable, `some (some c)` = parses to record
`c`), the module-level `_google_service` cache, and a counter supplying
fresh build ids. -/
structure St where
  tokenFile : Option (Option Creds)
  google_service : Option Service
  nextId : Nat
deriving DecidableEq, Repr

/-- Truthiness-and-validity test `creds and creds.valid` on an optional
record. -/
def credsOk : Option Creds → Bool
  | some c => c.valid
  | none => false

/-- Token-file loading step (source lines 70 to 77): if the file exists, try
to parse it; a parse failure is caught, logged and leaves `creds = None`. -/
def loadCreds (st : St) : Option Creds × List Ev :=
  match st.tokenFile with
  | none => (none, [Ev.existsToken])
  | some parsed => (parsed, [Ev.existsToken, Ev.readToken])

/-- Refresh attempt (source lines 84 to 99): on success the record is
replaced by the refreshed one; on failure the exception is caught,
`os.remove(token_path)` is attempted (an `OSError` there is caught and only
logged), and `creds` is reset to `None`. -/
def refreshStep (env : Env) (st : St) : Option Creds × St × List Ev :=
  match env.refreshResult with
  | some c' => (some c', st, [Ev.refreshCall])
  | none =>
      let st' := if env.removeOk then { st with tokenFile := none } else st
      (none, st', [Ev.refreshCall, Ev.removeToken])

/-- Persistence step (source lines 119 to 125): write the record to the token
file; an `IOError` is caught and logged, proceeding with the in-memory
record. -/
def saveStep (env : Env) (c : Creds) (st : St) : St × List Ev :=
  if env.saveOk then ({ st with tokenFile := some (some c) }, [Ev.writeToken])
  else (st, [Ev.writeToken])

/-- Build-and-cache step (source lines 129 to 146): if a valid record is in
hand, build the service, cache it in `_google_service` and return it; a build
failure is caught and the cache is cleared; with no valid record the cache is
likewise cleared and `None` returned. -/
def buildStep (env : Env) (creds : Option Creds) (st : St) :
    Option Service × St × List Ev :=
  match creds with
  | some c =>
      if c.valid then
        if env.buildOk then
          let svc : Service := ⟨c, st.nextId⟩
          (some svc, { st with google_service := some svc, nextId := st.nextId + 1 },
            [Ev.buildCall])
        else
          (none, { st with google_service := none }, [Ev.buildCall])
      else
        (none, { st with google_service := none }, [])
  | none => (none, { st with google_service := none }, [])

/-- The manager's entry point `_get_google_calendar_service` (source lines 49
to 146), as a function of the external-operation outcomes and the state.  The
whole body runs under `_service_lock`.  Returns the result (`None` on
failure), the final state, and the trace of performed effects. -/
def get_google_calendar_service (env : Env) (st : St) :
    Option Service × St × List Ev :=
  if !env.secretExists then
    (none, st, [Ev.existsSecret])
  else
    let (creds0, loadEvs) := loadCreds st
    let evs0 := Ev.existsSecret :: loadEvs
    if credsOk creds0 then
      let (res, st1, evsB) := buildStep env creds0 st
      (res, st1, evs0 ++ evsB)
    else
      let (creds1, needsAuth, st1, evs1) :=
        match creds0 with
        | some c =>
            if c.expired && c.refresh_token.isSome then
              let (r, st', e) := refreshStep env st
              (r, r.isNone, st', e)
            else (creds0, true, st, ([] : List Ev))
        | none => (none, true, st, ([] : List Ev))
      if needsAuth then
        match env.flowResult with
        | FlowOutcome.err _ => (none, st1, evs0 ++ evs1 ++ [Ev.flowCall])
        | FlowOutcome.ok cf =>
            let (st2, evsS) := saveStep env cf st1
            let (res, st3, evsB) := buildStep env (some cf) st2
            (res, st3, evs0 ++ evs1 ++ [Ev.flowCall] ++ evsS ++ evsB)
      else
        match creds1 with
        | some c' =>
            let (st2, evsS) := saveStep env c' st1
            let (res, st3, evsB) := buildStep env (some c') st2
            (res, st3, evs0 ++ evs1 ++ evsS ++ evsB)
        | none =>
            (none, { st1 with google_service := none }, evs0 ++ evs1)

/-- The record obtained by the flow, `none` on any flow exception. -/
def flowCreds (env : Env) : Option Creds :=
  match env.flowResult with
  | FlowOutcome.ok c => some c
  | FlowOutcome.err _ => none

/-- The credential record with which the call reaches the final
build-and-cache step: loaded valid from the store, refreshed, or obtained
from the flow; `none` when the secret is missing or no record was obtained. -/
def obtainedCreds (env : Env) (st : St) : Option Creds :=
  if !env.secretExists then none
  else
    let (creds0, _) := loadCreds st
    if credsOk creds0 then creds0
    else
      match creds0 with
      | some c =>
          if c.expired && c.refresh_token.isSome then
            match env.refreshResult with
            | some c' => some c'
            | none => flowCreds env
          else flowCreds env
      | none => flowCreds env

/-- N serialized executions of the entry point: `async with _service_lock`
makes the executions of the body mutually exclusive, so any set of N
concurrent callers executes as N sequential calls in some order, each against
the state the previous one left. -/
def runCalls (env : Env) : Nat → St → List (Option Service) × St × List Ev
  | 0, st => ([], st, [])
  | n + 1, st =>
      let (r, st1, e1) := get_google_calendar_service env st
      let (rs, st2, e2) := runCalls env n st1
      (r :: rs, st2, e1 ++ e2)

/-- Abstract value of a parsed `datetime`. -/
structure DateTimeVal where
  val : Nat
deriving DecidableEq, Repr

/-- Abstract value of a parsed `date`. -/
structure DateVal where
  val : Nat
deriving DecidableEq, Repr

/-- The library parsers `datetime.fromisoformat` and `date.fromisoformat`,
abstract: `some` is a parsed value, `none` is a `ValueError`. -/
structure IsoParsers where
  datetimeFromIso : String → Option DateTimeVal
  dateFromIso : String → Option DateVal

/-- The function `_parse_datetime` (source lines 149 to 174): try
`datetime.fromisoformat`; on `ValueError` try `date.fromisoformat`; on a
second `ValueError` log a warning and return the failure triple.  Both
exceptions are caught, so the function is total. -/
def parse_datetime (P : IsoParsers) (dt_str : String) :
    Option DateTimeVal × Option DateVal × Bool :=
  match P.datetimeFromIso dt_str with
  | some dt_obj => (some dt_obj, none, true)
  | none =>
      match P.dateFromIso dt_str with
      | some date_obj => (none, some date_obj, true)
      | none => (none, none, false)

/-- Modelled from the spec: `load_or_refresh_credentials`, which
`generate_token.py` imports from the calendar tool module, is absent from the
sources; only its caller is present.  The spec describes the manager's public
operation as `acquire_handle() -> (handle | None, success: bool)`; following
its algorithm in section 4.1: fail when the client secret is absent; load the
store record and return a valid one; refresh an expired-but-refreshable one,
discarding the store on refresh failure; otherwise run the interactive
consent flow; persist a freshly obtained record (persistence failure
non-fatal); return the final record with `success = True`, or `(None, False)`
on failure. -/
def load_or_refresh_credentials (env : Env) (st : St) : (Option Creds × Bool) × St :=
  if !env.secretExists then ((none, false), st)
  else
    let (creds0, _) := loadCreds st
    if credsOk creds0 then ((creds0, true), st)
    else
      let (creds1, st1) :=
        match creds0 with
        | some c =>
            if c.expired && c.refresh_token.isSome then
              let (r, st', _) := refreshStep env st
              (r, st')
            else (none, st)
        | none => (none, st)
      match creds1 with
      | some c' =>
          let (st2, _) := saveStep env c' st1
          ((some c', true), st2)
      | none =>
          match env.flowResult with
          | FlowOutcome.ok cf =>
              let (st2, _) := saveStep env cf st1
              ((some cf, true), st2)
          | FlowOutcome.err _ => ((none, false), st1)

/-- Outcome branch taken by the CLI's `generate` coroutine. -/
inductive GenOutcome where
  | configErrorSecret
  | configErrorToken
  | savedOk
  | invalidCreds
  | failed
deriving DecidableEq, Repr

/-- Configuration facts checked by `generate` before calling the manager:
`config.GOOGLE_CLIENT_SECRET_FILE` is set and the file exists, and
`config.GOOGLE_TOKEN_FILE` is set. -/
structure CliEnv where
  secretFileOk : Bool
  tokenConfigured : Bool
deriving DecidableEq, Repr

/-- The coroutine `generate` of `generate_token.py` (lines 12 to 29): check
the two configured paths, call `load_or_refresh_credentials()` once, and
classify the received `(creds, success)` pair into the three logging
branches.  Returns the branch taken, the number of entry-point invocations,
the received pair (when the call was made) and the final state. -/
def generate (cli : CliEnv) (env : Env) (st : St) :
    GenOutcome × Nat × Option (Option Creds × Bool) × St :=
  if !cli.secretFileOk then (GenOutcome.configErrorSecret, 0, none, st)
  else if !cli.tokenConfigured then (GenOutcome.configErrorToken, 0, none, st)
  else
    let ((creds, success), st1) := load_or_refresh_credentials env st
    let out :=
      if success && creds.isSome then GenOutcome.savedOk
      else if (match creds with | some c => !c.valid | none => false) then
        GenOutcome.invalidCreds
      else GenOutcome.failed
    (out, 1, some (creds, success), st1)

/-- Helper: from a state whose token file parses to a valid record, with the
secret present, the call loads the record, skips refresh/flow/save entirely
and goes straight to the build-and-cache step. -/
theorem gs_validToken (env : Env) (st : St) (c : Creds)
    (hs : env.secretExists = true) (ht : st.tokenFile = some (some c))
    (hv : c.valid = true) (hb : env.buildOk = true) :
    get_google_calendar_service env st =
      (some ⟨c, st.nextId⟩,
       { st with google_service := some ⟨c, st.nextId⟩, nextId := st.nextId + 1 },
       [Ev.existsSecret, Ev.existsToken, Ev.readToken, Ev.buildCall]) := by
  simp [get_google_calendar_service, loadCreds, credsOk, buildStep, hs, ht, hv, hb]

/-- C6: if the client secret file does not exist, the call fails immediately:
no refresh, no flow, no state change, regardless of the token store. -/
theorem C6_missing_secret_failure (env : Env) (st : St)
    (hs : env.secretExists = false) :
    get_google_calendar_service env st = (none, st, [Ev.existsSecret]) := by
  simp [get_google_calendar_service, hs]

/-- Witness for C6 at a state whose token store even holds a valid record. -/
theorem C6_witness :
    get_google_calendar_service
      ⟨false, none, true, FlowOutcome.ok ⟨some "T", false, some "R"⟩, true, true⟩
      ⟨some (some ⟨some "A", false, some "R"⟩), none, 0⟩ =
      (none, ⟨some (some ⟨some "A", false, some "R"⟩), none, 0⟩, [Ev.existsSecret]) :=
  C6_missing_secret_failure _ _ rfl

/-- C3: evaluation of the code at the claim's scenario (a cached handle bound
to a valid record exists, the store holds the same valid record, every
external operation would succeed): the call nevertheless checks and reads the
token file and replaces the cached handle with a freshly built one, instead
of returning the cached handle with no filesystem access. -/
theorem C3_no_fast_path_eval :
    Creds.valid ⟨some "A", false, some "R"⟩ = true ∧
    get_google_calendar_service
        ⟨true, none, true, FlowOutcome.ok ⟨some "A", false, some "R"⟩, true, true⟩
        ⟨some (some ⟨some "A", false, some "R"⟩),
         some ⟨⟨some "A", false, some "R"⟩, 0⟩, 5⟩ =
      (some ⟨⟨some "A", false, some "R"⟩, 5⟩,
       ⟨some (some ⟨some "A", false, some "R"⟩),
        some ⟨⟨some "A", false, some "R"⟩, 5⟩, 6⟩,
       [Ev.existsSecret, Ev.existsToken, Ev.readToken, Ev.buildCall]) ∧
    (some ⟨⟨some "A", false, some "R"⟩, 5⟩ : Option Service) ≠
      some ⟨⟨some "A", false, some "R"⟩, 0⟩ := by
  refine ⟨rfl, ?_, by decide⟩
  rfl

/-- C4 as stated is false: with a valid record in the store and the secret
present, a failure of the `build` call (caught at source lines 137 to 140)
makes the call return `None`, so the record is not returned bound in a
handle even though the claim's conditions hold. -/
theorem C4_counterexample :
    Creds.valid ⟨some "A", false, none⟩ = true ∧
    (get_google_calendar_service
        ⟨true, none, true, FlowOutcome.err FlowErr.other, true, false⟩
        ⟨some (some ⟨some "A", false, none⟩), none, 0⟩).1 = none := by
  exact ⟨rfl, rfl⟩

/-- C4 amended: with the secret present, a valid record in the token store
and a successful build, the record is returned bound in a freshly built
handle, and the only effects are the two existence checks, the store read and
the build: in particular no refresh exchange and no interactive flow. -/
theorem C4_valid_store_no_network (env : Env) (st : St) (c : Creds)
    (hs : env.secretExists = true) (ht : st.tokenFile = some (some c))
    (hv : c.valid = true) (hb : env.buildOk = true) :
    get_google_calendar_service env st =
      (some ⟨c, st.nextId⟩,
       { st with google_service := some ⟨c, st.nextId⟩, nextId := st.nextId + 1 },
       [Ev.existsSecret, Ev.existsToken, Ev.readToken, Ev.buildCall]) ∧
    Ev.refreshCall ∉ (get_google_calendar_service env st).2.2 ∧
    Ev.flowCall ∉ (get_google_calendar_service env st).2.2 := by
  refine ⟨gs_validToken env st c hs ht hv hb, ?_, ?_⟩ <;>
    rw [gs_validToken env st c hs ht hv hb] <;> simp

/-- Witness for the amended C4 at a concrete valid store record. -/
theorem C4_witness :
    get_google_calendar_service
        ⟨true, none, true, FlowOutcome.err FlowErr.other, true, true⟩
        ⟨some (some ⟨some "A", false, none⟩), none, 3⟩ =
      (some ⟨⟨some "A", false, none⟩, 3⟩,
       { tokenFile := some (some ⟨some "A", false, none⟩),
         google_service := some ⟨⟨some "A", false, none⟩, 3⟩, nextId := 4 },
       [Ev.existsSecret, Ev.existsToken, Ev.readToken, Ev.buildCall]) ∧
    Ev.refreshCall ∉ (get_google_calendar_service
        ⟨true, none, true, FlowOutcome.err FlowErr.other, true, true⟩
        ⟨some (some ⟨some "A", false, none⟩), none, 3⟩).2.2 ∧
    Ev.flowCall ∉ (get_google_calendar_service
        ⟨true, none, true, FlowOutcome.err FlowErr.other, true, true⟩
        ⟨some (some ⟨some "A", false, none⟩), none, 3⟩).2.2 :=
  C4_valid_store_no_network _ _ _ rfl rfl rfl rfl

set_option maxHeartbeats 2000000 in
/-- Helper characterization: the returned value is determined by the record
reaching the build step (`obtainedCreds`), its validity and the build
outcome; the cache ends up equal to the returned value whenever the build
step is reached, and is left untouched when it is not (missing secret or
failed flow); and whenever the store did not already hold a valid record yet
a record was obtained, a token-file write was attempted. -/
theorem gs_main (env : Env) (st : St) :
    (get_google_calendar_service env st).1 =
      (match obtainedCreds env st with
       | some c => if c.valid && env.buildOk then some (⟨c, st.nextId⟩ : Service) else none
       | none => none) ∧
    (get_google_calendar_service env st).2.1.google_service =
      (match obtainedCreds env st with
       | some _ => (get_google_calendar_service env st).1
       | none => st.google_service) ∧
    (credsOk (loadCreds st).1 = false →
      ∀ c, obtainedCreds env st = some c →
        Ev.writeToken ∈ (get_google_calendar_service env st).2.2) := by
  rcases env with ⟨se, rr, ro, fr, so, bo⟩
  rcases st with ⟨tf, g, nid⟩
  cases se <;> rcases tf with _ | (_ | c) <;>
    rcases rr with _ | c' <;> rcases fr with cf | e <;>
    cases so <;> cases bo <;> cases ro <;>
    simp [get_google_calendar_service, obtainedCreds, loadCreds, flowCreds, refreshStep,
      saveStep, buildStep, credsOk] <;>
    split_ifs <;> simp_all <;> split_ifs <;> simp_all

/-- Helper: the record reaching the build step does not depend on whether the
token-file write would succeed. -/
theorem obtainedCreds_saveOk (env : Env) (st : St) (b : Bool) :
    obtainedCreds { env with saveOk := b } st = obtainedCreds env st := rfl

/-- C1 as stated is false: the secret file exists and a valid, non-expired
record is obtained (loaded from the store), yet when the `build` call fails
(exception caught at source lines 137 to 140) the call returns `None` instead
of a handle. -/
theorem C1_counterexample :
    obtainedCreds ⟨true, none, true, FlowOutcome.err FlowErr.other, false, false⟩
        ⟨some (some ⟨some "B", false, none⟩), none, 7⟩ = some ⟨some "B", false, none⟩ ∧
    Creds.valid ⟨some "B", false, none⟩ = true ∧
    (get_google_calendar_service ⟨true, none, true, FlowOutcome.err FlowErr.other, false, false⟩
        ⟨some (some ⟨some "B", false, none⟩), none, 7⟩).1 = none := by
  exact ⟨rfl, rfl, rfl⟩

/-- C1 amended: whenever a valid, non-expired record is obtained (loaded,
refreshed or flow-produced) and the build call succeeds, an authorized handle
bound to that record is built, cached in `_google_service` and returned. -/
theorem C1_valid_record_build_and_cache (env : Env) (st : St) (c : Creds)
    (ho : obtainedCreds env st = some c)
    (hv : c.valid = true) (hb : env.buildOk = true) :
    (get_google_calendar_service env st).1 = some ⟨c, st.nextId⟩ ∧
    (get_google_calendar_service env st).2.1.google_service = some ⟨c, st.nextId⟩ := by
  obtain ⟨h1, h2, -⟩ := gs_main env st
  rw [ho] at h1 h2
  simp only [hv, hb, Bool.and_self, if_true] at h1 h2
  exact ⟨h1, h2.trans h1⟩

/-- Witness for the amended C1: a record obtained through the interactive
flow is built into a handle, cached and returned. -/
theorem C1_witness :
    (get_google_calendar_service ⟨true, none, true, FlowOutcome.ok ⟨some "W", false, some "R"⟩, true, true⟩
        ⟨none, none, 0⟩).1 = some ⟨⟨some "W", false, some "R"⟩, 0⟩ ∧
    (get_google_calendar_service ⟨true, none, true, FlowOutcome.ok ⟨some "W", false, some "R"⟩, true, true⟩
        ⟨none, none, 0⟩).2.1.google_service = some ⟨⟨some "W", false, some "R"⟩, 0⟩ :=
  C1_valid_record_build_and_cache _ _ _ rfl rfl rfl

/-- C7 as stated is false in two respects: the entry point returns a bare
optional handle, not a pair with a boolean flag, and the failure kinds are
not distinguished in the returned value: a missing-secret configuration
failure and a failed interactive flow return the very same value `None`
(only the logs differ). -/
theorem C7_counterexample :
    (get_google_calendar_service ⟨false, none, true, FlowOutcome.err FlowErr.other, true, true⟩
        ⟨none, none, 0⟩).1 =
      (get_google_calendar_service ⟨true, none, true, FlowOutcome.err FlowErr.other, true, true⟩
        ⟨none, none, 0⟩).1 ∧
    (get_google_calendar_service ⟨false, none, true, FlowOutcome.err FlowErr.other, true, true⟩
        ⟨none, none, 0⟩).1 = none ∧
    Ev.flowCall ∈ (get_google_calendar_service ⟨true, none, true, FlowOutcome.err FlowErr.other, true, true⟩
        ⟨none, none, 0⟩).2.2 ∧
    Ev.flowCall ∉ (get_google_calendar_service ⟨false, none, true, FlowOutcome.err FlowErr.other, true, true⟩
        ⟨none, none, 0⟩).2.2 := by
  decide

/-- C7 amended: the entry point returns a single optional handle; it is
`some` exactly when a valid record was obtained and the build succeeded, and
every returned handle is bound to the valid record that was obtained.  Every
internal error is caught and mapped to the `None` return (the embedding is a
total function), with the failure kinds distinguished only in logs. -/
theorem C7_result_shape (env : Env) (st : St) :
    ((get_google_calendar_service env st).1.isSome =
      (credsOk (obtainedCreds env st) && env.buildOk)) ∧
    (∀ h, (get_google_calendar_service env st).1 = some h →
      h.creds.valid = true ∧ obtainedCreds env st = some h.creds) := by
  obtain ⟨h1, -, -⟩ := gs_main env st
  constructor
  · rw [h1]
    rcases ho : obtainedCreds env st with _ | c
    · simp [credsOk]
    · cases hv : c.valid <;> cases hb : env.buildOk <;> simp [credsOk, hv, hb]
  · intro h hh
    rw [h1] at hh
    rcases ho : obtainedCreds env st with _ | c
    · rw [ho] at hh; simp at hh
    · rw [ho] at hh
      cases hv : c.valid <;> cases hb : env.buildOk <;> simp [hv, hb] at hh
      subst hh
      exact ⟨hv, rfl⟩

/-- Witness for the amended C7 at a concrete success and via its success
characterization. -/
theorem C7_witness :
    Creds.valid ⟨some "V", false, none⟩ = true ∧
    obtainedCreds ⟨true, none, true, FlowOutcome.ok ⟨some "V", false, none⟩, true, true⟩
        ⟨none, none, 1⟩ = some ⟨some "V", false, none⟩ :=
  (C7_result_shape ⟨true, none, true, FlowOutcome.ok ⟨some "V", false, none⟩, true, true⟩
      ⟨none, none, 1⟩).2 ⟨⟨some "V", false, none⟩, 1⟩ rfl

/-- C8: a fresh valid record was obtained (the store did not already hold a
valid one), the token-file write fails, the build succeeds: the write failure
is only logged, a write was indeed attempted, and the handle bound to the
fresh record is still cached and returned as a success: the returned value is
the same as if the write had succeeded. -/
theorem C8_persistence_failure_nonfatal (env : Env) (st : St) (c : Creds)
    (hl : credsOk (loadCreds st).1 = false)
    (ho : obtainedCreds env st = some c)
    (hv : c.valid = true) (hb : env.buildOk = true)
    (_hw : env.saveOk = false) :
    (get_google_calendar_service env st).1 = some ⟨c, st.nextId⟩ ∧
    (get_google_calendar_service env st).2.1.google_service = some ⟨c, st.nextId⟩ ∧
    Ev.writeToken ∈ (get_google_calendar_service env st).2.2 ∧
    (get_google_calendar_service env st).1 =
      (get_google_calendar_service { env with saveOk := true } st).1 := by
  obtain ⟨h1, h2, h3⟩ := gs_main env st
  obtain ⟨h1', -, -⟩ := gs_main { env with saveOk := true } st
  rw [obtainedCreds_saveOk, ho] at h1'
  rw [ho] at h1 h2
  simp only [hv, hb, Bool.and_self, if_true] at h1 h2
  refine ⟨h1, h2.trans h1, h3 hl c ho, ?_⟩
  rw [h1, h1']
  simp [hv, hb]

/-- Witness for C8: the flow produces a fresh valid record, the write fails,
and the handle is still returned and cached. -/
theorem C8_witness :
    (get_google_calendar_service ⟨true, none, true, FlowOutcome.ok ⟨some "N", false, some "R"⟩, false, true⟩
        ⟨none, none, 2⟩).1 = some ⟨⟨some "N", false, some "R"⟩, 2⟩ ∧
    (get_google_calendar_service ⟨true, none, true, FlowOutcome.ok ⟨some "N", false, some "R"⟩, false, true⟩
        ⟨none, none, 2⟩).2.1.google_service = some ⟨⟨some "N", false, some "R"⟩, 2⟩ ∧
    Ev.writeToken ∈ (get_google_calendar_service ⟨true, none, true, FlowOutcome.ok ⟨some "N", false, some "R"⟩, false, true⟩
        ⟨none, none, 2⟩).2.2 ∧
    (get_google_calendar_service ⟨true, none, true, FlowOutcome.ok ⟨some "N", false, some "R"⟩, false, true⟩
        ⟨none, none, 2⟩).1 =
      (get_google_calendar_service
        { secretExists := true, refreshResult := none, removeOk := true,
          flowResult := FlowOutcome.ok ⟨some "N", false, some "R"⟩, saveOk := true, buildOk := true }
        ⟨none, none, 2⟩).1 :=
  C8_persistence_failure_nonfatal _ _ _ rfl rfl rfl rfl rfl

/-- C5 as stated is false: the store holds an expired record with a refresh
token and the refresh exchange fails, but when `os.remove(token_path)` itself
fails (the `OSError` is caught and only logged, source lines 95 to 97) the
store file still exists afterward with the stale record; the flow is still
attempted and the refresh failure is still swallowed. -/
theorem C5_counterexample :
    Creds.expired ⟨some "A", true, some "R"⟩ = true ∧
    (Creds.refresh_token ⟨some "A", true, some "R"⟩).isSome = true ∧
    (get_google_calendar_service ⟨true, none, false, FlowOutcome.err FlowErr.other, true, true⟩
        ⟨some (some ⟨some "A", true, some "R"⟩), none, 0⟩).2.1.tokenFile =
      some (some ⟨some "A", true, some "R"⟩) ∧
    Ev.flowCall ∈ (get_google_calendar_service ⟨true, none, false, FlowOutcome.err FlowErr.other, true, true⟩
        ⟨some (some ⟨some "A", true, some "R"⟩), none, 0⟩).2.2 ∧
    (get_google_calendar_service ⟨true, none, false, FlowOutcome.err FlowErr.other, true, true⟩
        ⟨some (some ⟨some "A", true, some "R"⟩), none, 0⟩).1 = none := by
  refine ⟨rfl, rfl, rfl, ?_, rfl⟩
  decide

/-- C5 amended: when the store holds an expired record with a refresh token
and the refresh exchange fails, the failure is caught; provided the OS
removal succeeds, the token file is deleted at that point (a later successful
flow may write a fresh record to the same path); and the interactive flow is
attempted next within the same call. -/
theorem C5_refresh_failure_recovery (env : Env) (st : St) (c : Creds)
    (hs : env.secretExists = true) (ht : st.tokenFile = some (some c))
    (he : c.expired = true) (hr : c.refresh_token.isSome = true)
    (hf : env.refreshResult = none) (hm : env.removeOk = true) :
    refreshStep env st =
      (none, { st with tokenFile := none }, [Ev.refreshCall, Ev.removeToken]) ∧
    (get_google_calendar_service env st).2.2.take 6 =
      [Ev.existsSecret, Ev.existsToken, Ev.readToken,
       Ev.refreshCall, Ev.removeToken, Ev.flowCall] := by
  have hv : c.valid = false := by simp [Creds.valid, he]
  constructor
  · simp [refreshStep, hf, hm]
  · rcases env with ⟨se, rr, ro, fr, so, bo⟩
    subst hs
    subst hf
    subst hm
    rcases fr with cf | e <;> cases so <;> cases bo <;>
      simp [get_google_calendar_service, loadCreds, credsOk, refreshStep, saveStep,
        buildStep, ht, hv, he, hr]

/-- Witness for the amended C5 at a concrete expired refreshable record. -/
theorem C5_witness :
    refreshStep ⟨true, none, true, FlowOutcome.err FlowErr.other, true, true⟩
        ⟨some (some ⟨some "A", true, some "R"⟩), none, 0⟩ =
      (none,
       { tokenFile := none, google_service := none, nextId := 0 },
       [Ev.refreshCall, Ev.removeToken]) ∧
    (get_google_calendar_service ⟨true, none, true, FlowOutcome.err FlowErr.other, true, true⟩
        ⟨some (some ⟨some "A", true, some "R"⟩), none, 0⟩).2.2.take 6 =
      [Ev.existsSecret, Ev.existsToken, Ev.readToken,
       Ev.refreshCall, Ev.removeToken, Ev.flowCall] :=
  C5_refresh_failure_recovery _ _ _ rfl rfl rfl rfl rfl rfl

/-- Helper: starting from any state whose token file holds a record `c` that
is valid, every serialized call just reloads `c`, builds a fresh handle bound
to `c` and never runs the interactive flow. -/
theorem runCalls_validToken (env : Env) (c : Creds)
    (hs : env.secretExists = true) (hv : c.valid = true) (hb : env.buildOk = true) :
    ∀ n (st : St), st.tokenFile = some (some c) →
      (runCalls env n st).2.2.count Ev.flowCall = 0 ∧
      ∀ r ∈ (runCalls env n st).1, ∃ h2, r = some h2 ∧ h2.creds = c := by
  intro n
  induction n with
  | zero => intro st ht; simp [runCalls]
  | succ n ih =>
      intro st ht
      have hgs := gs_validToken env st c hs ht hv hb
      have ihh := ih
        { st with google_service := some ⟨c, st.nextId⟩, nextId := st.nextId + 1 } ht
      simp only [runCalls, hgs]
      constructor
      · simp only [List.count_append, ihh.1]
        decide
      · intro r hr
        rcases List.mem_cons.mp hr with hr | hr
        · exact ⟨⟨c, st.nextId⟩, hr, rfl⟩
        · exact ihh.2 r hr

/-- C2 as stated is false: two serialized calls from a state with no cached
handle and an empty store (lock held for each whole execution) do not observe
the same resulting handle: each call runs the full sequence and builds its
own distinct handle object.  Moreover when the token-file write fails, the
interactive flow itself executes once per caller, twice in total, not exactly
once. -/
theorem C2_counterexample :
    (runCalls ⟨true, none, true, FlowOutcome.ok ⟨some "T", false, some "R"⟩, true, true⟩ 2
        ⟨none, none, 0⟩).1 =
      [some ⟨⟨some "T", false, some "R"⟩, 0⟩, some ⟨⟨some "T", false, some "R"⟩, 1⟩] ∧
    (⟨⟨some "T", false, some "R"⟩, 0⟩ : Service) ≠ ⟨⟨some "T", false, some "R"⟩, 1⟩ ∧
    (runCalls ⟨true, none, true, FlowOutcome.ok ⟨some "T", false, some "R"⟩, false, true⟩ 2
        ⟨none, none, 0⟩).2.2.count Ev.flowCall = 2 := by
  refine ⟨rfl, by decide, by rfl⟩

/-- C2 amended: the lock gives mutual exclusion, so N concurrent callers
execute as N serialized runs of the full sequence; with no cached handle and
an empty store, when the flow produces a valid record and both the write and
the builds succeed, the flow executes exactly once (later callers reload the
persisted record rather than re-authorizing), and every caller receives a
successful handle bound to the same record, though each handle is a distinct
freshly built object. -/
theorem C2_serialized_single_flow (env : Env) (st : St) (c : Creds) (n : Nat)
    (hs : env.secretExists = true) (ht : st.tokenFile = none)
    (hf : env.flowResult = FlowOutcome.ok c) (hv : c.valid = true)
    (hsv : env.saveOk = true) (hb : env.buildOk = true) :
    (runCalls env (n + 1) st).2.2.count Ev.flowCall = 1 ∧
    ∀ r ∈ (runCalls env (n + 1) st).1, ∃ h2, r = some h2 ∧ h2.creds = c := by
  have hgs : get_google_calendar_service env st =
      (some ⟨c, st.nextId⟩,
       (⟨some (some c), some ⟨c, st.nextId⟩, st.nextId + 1⟩ : St),
       [Ev.existsSecret, Ev.existsToken, Ev.flowCall, Ev.writeToken, Ev.buildCall]) := by
    simp [get_google_calendar_service, loadCreds, credsOk, saveStep, buildStep,
      hs, ht, hf, hv, hsv, hb]
  have hrest := runCalls_validToken env c hs hv hb n
    ⟨some (some c), some ⟨c, st.nextId⟩, st.nextId + 1⟩ rfl
  simp only [runCalls, hgs]
  constructor
  · simp only [List.count_append, hrest.1]
    decide
  · intro r hr
    rcases List.mem_cons.mp hr with hr | hr
    · exact ⟨⟨c, st.nextId⟩, hr, rfl⟩
    · exact hrest.2 r hr

/-- Witness for the amended C2: two serialized callers, one flow, both
successful and bound to the same record. -/
theorem C2_witness :
    (runCalls ⟨true, none, true, FlowOutcome.ok ⟨some "S", false, some "R"⟩, true, true⟩ 2
        ⟨none, none, 0⟩).2.2.count Ev.flowCall = 1 ∧
    ∀ r ∈ (runCalls ⟨true, none, true, FlowOutcome.ok ⟨some "S", false, some "R"⟩, true, true⟩ 2
        ⟨none, none, 0⟩).1,
      ∃ h2, r = some h2 ∧ h2.creds = ⟨some "S", false, some "R"⟩ :=
  C2_serialized_single_flow _ _ _ 1 rfl rfl rfl rfl rfl rfl

/-- C9: with the client secret file configured and present and the token file
path configured, the CLI's `generate` invokes the manager's entry point
exactly once and receives its `(credentials, success)` result. -/
theorem C9_cli_single_invocation (cli : CliEnv) (env : Env) (st : St)
    (h1 : cli.secretFileOk = true) (h2 : cli.tokenConfigured = true) :
    (generate cli env st).2.1 = 1 ∧
    (generate cli env st).2.2.1 = some (load_or_refresh_credentials env st).1 := by
  rcases hl : load_or_refresh_credentials env st with ⟨⟨creds, success⟩, st1⟩
  simp [generate, h1, h2, hl]

/-- Witness for C9 with a configured CLI and an interactive-flow success. -/
theorem C9_witness :
    (generate ⟨true, true⟩ ⟨true, none, true, FlowOutcome.ok ⟨some "G", false, some "R"⟩, true, true⟩
        ⟨none, none, 0⟩).2.1 = 1 ∧
    (generate ⟨true, true⟩ ⟨true, none, true, FlowOutcome.ok ⟨some "G", false, some "R"⟩, true, true⟩
        ⟨none, none, 0⟩).2.2.1 =
      some (load_or_refresh_credentials
        ⟨true, none, true, FlowOutcome.ok ⟨some "G", false, some "R"⟩, true, true⟩
        ⟨none, none, 0⟩).1 :=
  C9_cli_single_invocation _ _ _ rfl rfl

/-- C10: `_parse_datetime` is total (both `ValueError`s are caught) and
returns exactly one of three shapes: `(datetime, None, True)` when the
datetime parser accepts the string, `(None, date, True)` when only the date
parser accepts it, `(None, None, False)` otherwise; the two value components
are never both present, and the flag is set exactly when one of them is. -/
theorem C10_parse_datetime_shape (P : IsoParsers) (s : String) :
    (¬((parse_datetime P s).1.isSome = true ∧ (parse_datetime P s).2.1.isSome = true)) ∧
    ((parse_datetime P s).2.2 =
      ((parse_datetime P s).1.isSome || (parse_datetime P s).2.1.isSome)) ∧
    (∀ dt, P.datetimeFromIso s = some dt → parse_datetime P s = (some dt, none, true)) ∧
    (P.datetimeFromIso s = none → ∀ d, P.dateFromIso s = some d →
      parse_datetime P s = (none, some d, true)) ∧
    (P.datetimeFromIso s = none → P.dateFromIso s = none →
      parse_datetime P s = (none, none, false)) := by
  rcases hdt : P.datetimeFromIso s with _ | dt <;>
    rcases hd : P.dateFromIso s with _ | d <;>
    simp [parse_datetime, hdt, hd]

/-- Witness for C10 on concrete parsers: a date-only string yields the
date-shaped triple. -/
theorem C10_witness :
    parse_datetime
        ⟨fun s => if s = "2025-04-16T10:00:00" then some ⟨1⟩ else none,
         fun s => if s = "2025-04-16" then some ⟨2⟩ else none⟩ "2025-04-16" =
      (none, some ⟨2⟩, true) :=
  (C10_parse_datetime_shape
      ⟨fun s => if s = "2025-04-16T10:00:00" then some ⟨1⟩ else none,
       fun s => if s = "2025-04-16" then some ⟨2⟩ else none⟩ "2025-04-16").2.2.2.1
    (by decide) ⟨2⟩ (by decide)

end GCal
